import Mathlib

/-!
Shallow embedding of the `simple_di` dependency-injection library
(`src/simple_di/__init__.py` and `src/simple_di/providers.py`).

Python objects with reference semantics (dicts and provider instances) live
in a heap (`World.store`); a `Value` is either an immutable scalar
(`None`, the sentinel, ints, strings) or a reference into that heap.
Python's `is` on the values we model is reference equality for heap objects
and value equality for the immutable scalars (singletons `None`/`sentinel`,
interned small ints/strings).

Side-effecting wrapped callables are modelled by a finite enumeration
`FuncId` interpreted by `applyFunc`; the `counting` function increments a
counter stored in the world, which lets invocation counts be stated.
-/

namespace SimpleDI

/-- Python exceptions raised by the code paths we model. -/
inductive PyErr where
  | attributeError
  | keyError (k : String)
  | valueError (msg : String)
  | typeError
  | notImplementedError
  | indexError
  | recursionError
deriving DecidableEq, Repr

/-- Heap address of a Python object with reference semantics. -/
abbrev Addr := Nat

/-- Python runtime values occurring in the modelled code. -/
inductive Value where
  | vnone
  | sentinel
  | int (n : Int)
  | str (s : String)
  | ref (a : Addr)
deriving DecidableEq, Repr

/-- A Python dict restricted to string keys, as an insertion-ordered
association list with unique keys. -/
abbrev PyDict := List (String × Value)

/-- The wrapped callables used in this development.  `counting` is a
side-effecting function counting its own invocations (it ignores its
arguments and returns the new count); `sub` returns the difference of two
int arguments (argument-order sensitive, so substitution order is visible). -/
inductive FuncId where
  | counting
  | sub
deriving DecidableEq, Repr

/-- Heap objects: dicts, and the provider instances of
`src/simple_di/providers.py`.  Every provider carries the `_override`
field initialised by `Provider.__init__`; the remaining fields are the
per-class state (`_value`; `_func`/`_args`/`_kwargs`; `_cache`;
`_data`/`fallback`; `_config`/`_path`). -/
inductive Obj where
  | dict (entries : PyDict)
  | static (ov : Value) (value : Value)
  | callable (ov : Value) (func : FuncId) (args : List Value) (kwargs : List (String × Value))
  | memoized (ov : Value) (func : FuncId) (args : List Value) (kwargs : List (String × Value))
      (cache : Value)
  | config (ov : Value) (data : Value) (fallback : Value)
  | configItem (ov : Value) (cfg : Addr) (path : List String)
deriving DecidableEq, Repr

/-- The world: the heap plus the state of the `counting` function. -/
structure World where
  store : List Obj
  counter : Nat
deriving DecidableEq, Repr

def World.obj? (w : World) (a : Addr) : Option Obj := w.store.get? a

def World.setObj (w : World) (a : Addr) (o : Obj) : World :=
  { w with store := w.store.set a o }

/-- Allocate a fresh object (`dict()` in Python); returns its address. -/
def World.alloc (w : World) (o : Obj) : World × Addr :=
  ({ w with store := w.store ++ [o] }, w.store.length)

/-- Python `isinstance(·, Provider)` for a heap address. -/
def isProviderAt (w : World) (a : Addr) : Bool :=
  match w.obj? a with
  | some (.dict _) => false
  | some _ => true
  | none => false

/-- Python `isinstance(v, Provider)`. -/
def isProvider (w : World) (v : Value) : Bool :=
  match v with
  | .ref a => isProviderAt w a
  | _ => false

/-- Python `x is y` for modelled values: reference equality on heap
objects, value equality on immutable scalars. -/
def pyIs (x y : Value) : Bool := x == y

/-- Python `d.get(k, default-absent)` on a dict. -/
def dictLookup (d : PyDict) (k : String) : Option Value := d.lookup k

/-- Python `d[k] = v` on a dict: overwrite in place or append. -/
def dictInsert (d : PyDict) (k : String) (v : Value) : PyDict :=
  if (d.lookup k).isSome then d.map (fun kv => if kv.1 = k then (k, v) else kv)
  else d ++ [(k, v)]

/-- Embedding of `Configuration.get` (providers.py): raise if `_data` and `fallback`
are both the sentinel, else return `fallback` when `_data` is unset,
else return `_data`.  Ignores `_override` (the method is overridden). -/
def configurationGet (w : World) (a : Addr) : Except PyErr Value :=
  match w.obj? a with
  | some (.config _ data fb) =>
    if data = .sentinel then
      if fb = .sentinel then .error (.valueError "Configuration Provider not initialized")
      else .ok fb
    else .ok data
  | _ => .error .typeError

/-- Python `cursor[k]` read: dict key lookup, `KeyError` when the key is
missing, `TypeError` when the cursor is not subscriptable. -/
def subscriptGet (w : World) (cursor : Value) (k : String) : Except PyErr Value :=
  match cursor with
  | .ref a =>
    match w.obj? a with
    | some (.dict d) =>
      match dictLookup d k with
      | some v => .ok v
      | none => .error (.keyError k)
    | _ => .error .typeError
  | _ => .error .typeError

/-- The `for i in self._path: _cursor = _cursor[i]` loop of
`_ConfigurationItem.get`. -/
def pathWalk (w : World) : Value → List String → Except PyErr Value
  | cursor, [] => .ok cursor
  | cursor, k :: rest =>
    match subscriptGet w cursor k with
    | .ok nxt => pathWalk w nxt rest
    | .error e => .error e

/-- Embedding of `_ConfigurationItem.get` (providers.py): resolve the backing
configuration, short-circuit to the fallback when the resolved value *is*
(object identity) the fallback, else walk the path. -/
def configurationItemGet (w : World) (cfgA : Addr) (path : List String) : Except PyErr Value :=
  match w.obj? cfgA with
  | some (.config _ _ fb) =>
    match configurationGet w cfgA with
    | .error e => .error e
    | .ok cursor =>
      if !(fb == Value.sentinel) && pyIs cursor fb then .ok fb
      else pathWalk w cursor path
  | _ => .error .typeError

/-- Interpretation of the wrapped callables.  `counting` bumps the
world counter and returns it; `sub` subtracts its two int positionals. -/
def applyFunc : FuncId → World → List Value → List (String × Value) → World × Except PyErr Value
  | .counting, w, _, _ => ({ w with counter := w.counter + 1 }, .ok (.int (w.counter + 1)))
  | .sub, w, [.int x, .int y], [] => (w, .ok (.int (x - y)))
  | .sub, w, _, _ => (w, .error .typeError)

/-- Embedding of `_inject_args` (`__init__.py`), parametrized by the resolver used
for the nested `get()` call on Provider-typed arguments: replace each
argument that is a Provider instance by its `get()` result, left to
right, passing every other argument through unchanged. -/
def injectArgsF (getRec : World → Addr → World × Except PyErr Value) :
    World → List Value → World × Except PyErr (List Value)
  | w, [] => (w, .ok [])
  | w, v :: rest =>
    match
      (match v with
       | .ref a => if isProviderAt w a then getRec w a else (w, .ok v)
       | _ => (w, .ok v)) with
    | (w1, .error e) => (w1, .error e)
    | (w1, .ok rv) =>
      match injectArgsF getRec w1 rest with
      | (w2, .error e) => (w2, .error e)
      | (w2, .ok rs) => (w2, .ok (rv :: rs))

/-- Embedding of `_inject_kwargs` (`__init__.py`): same for named arguments. -/
def injectKwargsF (getRec : World → Addr → World × Except PyErr Value) :
    World → List (String × Value) → World × Except PyErr (List (String × Value))
  | w, [] => (w, .ok [])
  | w, (k, v) :: rest =>
    match
      (match v with
       | .ref a => if isProviderAt w a then getRec w a else (w, .ok v)
       | _ => (w, .ok v)) with
    | (w1, .error e) => (w1, .error e)
    | (w1, .ok rv) =>
      match injectKwargsF getRec w1 rest with
      | (w2, .error e) => (w2, .error e)
      | (w2, .ok rs) => (w2, .ok ((k, rv) :: rs))

/-- Embedding of `Provider.get` dispatched on the provider's class, with fuel bounding
the provider-graph depth (Python would raise `RecursionError` on a cycle).
`Static`/`Callable`/`MemoizedCallable` inherit `Provider.get`: return the
override unless it is the sentinel, else `_provide()`.  `Configuration`
and `_ConfigurationItem` override `get` and never consult `_override`. -/
def getP : Nat → World → Addr → World × Except PyErr Value
  | 0, w, _ => (w, .error .recursionError)
  | fuel + 1, w, a =>
    match w.obj? a with
    | some (.static ov value) =>
      if ov ≠ .sentinel then (w, .ok ov) else (w, .ok value)
    | some (.callable ov f args kwargs) =>
      if ov ≠ .sentinel then (w, .ok ov)
      else
        match injectArgsF (fun w2 b => getP fuel w2 b) w args with
        | (w1, .error e) => (w1, .error e)
        | (w1, .ok ra) =>
          match injectKwargsF (fun w2 b => getP fuel w2 b) w1 kwargs with
          | (w2, .error e) => (w2, .error e)
          | (w2, .ok rk) => applyFunc f w2 ra rk
    | some (.memoized ov f args kwargs cache) =>
      if ov ≠ .sentinel then (w, .ok ov)
      else if cache ≠ .sentinel then (w, .ok cache)
      else
        match injectArgsF (fun w2 b => getP fuel w2 b) w args with
        | (w1, .error e) => (w1, .error e)
        | (w1, .ok ra) =>
          match injectKwargsF (fun w2 b => getP fuel w2 b) w1 kwargs with
          | (w2, .error e) => (w2, .error e)
          | (w2, .ok rk) =>
            match applyFunc f w2 ra rk with
            | (w3, .error e) => (w3, .error e)
            | (w3, .ok v) =>
              match w3.obj? a with
              | some (.memoized ov2 f2 args2 kwargs2 _) =>
                (w3.setObj a (.memoized ov2 f2 args2 kwargs2 v), .ok v)
              | _ => (w3, .error .typeError)
    | some (.config _ _ _) => (w, configurationGet w a)
    | some (.configItem _ cfgA path) => (w, configurationItemGet w cfgA path)
    | some (.dict _) => (w, .error .typeError)
    | none => (w, .error .typeError)

/-- The function `_inject_args` resolving nested providers with the given fuel. -/
def injectArgsW (fuel : Nat) : World → List Value → World × Except PyErr (List Value) :=
  injectArgsF (fun w a => getP fuel w a)

/-- The function `_inject_kwargs` resolving nested providers with the given fuel. -/
def injectKwargsW (fuel : Nat) : World → List (String × Value) →
    World × Except PyErr (List (String × Value)) :=
  injectKwargsF (fun w a => getP fuel w a)

/-- One step of the `for i in self._path[:-1]` loop of
`_ConfigurationItem.set`: `_next = _cursor.get(i, sentinel)`; when absent,
allocate a fresh empty dict, link it at the key, and descend into it;
when present, descend into the existing value unchanged.  A cursor that
is not a dict has no `.get` method (`AttributeError`), except a provider
object, whose `get` method rejects the arguments (`TypeError`). -/
def setStep (w : World) (cursor : Value) (k : String) : World × Except PyErr Value :=
  match cursor with
  | .ref a =>
    match w.obj? a with
    | some (.dict d) =>
      match dictLookup d k with
      | some nxt => (w, .ok nxt)
      | none =>
        let (w1, fresh) := w.alloc (.dict [])
        (w1.setObj a (.dict (dictInsert d k (.ref fresh))), .ok (.ref fresh))
    | some _ => (w, .error .typeError)
    | none => (w, .error .typeError)
  | _ => (w, .error .attributeError)

/-- The whole `for i in self._path[:-1]` loop. -/
def setWalk : World → Value → List String → World × Except PyErr Value
  | w, cursor, [] => (w, .ok cursor)
  | w, cursor, k :: rest =>
    match setStep w cursor k with
    | (w1, .error e) => (w1, .error e)
    | (w1, .ok nxt) => setWalk w1 nxt rest

/-- Python `cursor[k] = v` write on a dict. -/
def subscriptSet (w : World) (cursor : Value) (k : String) (v : Value) :
    World × Except PyErr Unit :=
  match cursor with
  | .ref a =>
    match w.obj? a with
    | some (.dict d) => (w.setObj a (.dict (dictInsert d k v)), .ok ())
    | _ => (w, .error .typeError)
  | _ => (w, .error .typeError)

/-- Embedding of `_ConfigurationItem.set` (providers.py): ignore the sentinel, resolve
the backing configuration, materialise missing intermediate dicts along
`path[:-1]`, then assign at the last segment. -/
def configurationItemSet (w : World) (cfgA : Addr) (path : List String) (v : Value) :
    World × Except PyErr Unit :=
  if v = .sentinel then (w, .ok ())
  else
    match configurationGet w cfgA with
    | .error e => (w, .error e)
    | .ok cursor0 =>
      match path.getLast? with
      | none => (w, .error .indexError)
      | some last =>
        match setWalk w cursor0 path.dropLast with
        | (w1, .error e) => (w1, .error e)
        | (w1, .ok cursor) => subscriptSet w1 cursor last v

/-- The method `set` dispatched on the provider's class.  `Static`, `Callable` and
`MemoizedCallable` inherit `Provider.set`, which unconditionally stores
the value as `_override`; `Configuration.set` ignores the sentinel and
stores into `_data`; `_ConfigurationItem.set` writes through to the dict. -/
def setP (w : World) (a : Addr) (v : Value) : World × Except PyErr Unit :=
  match w.obj? a with
  | some (.static _ value) => (w.setObj a (.static v value), .ok ())
  | some (.callable _ f args kwargs) => (w.setObj a (.callable v f args kwargs), .ok ())
  | some (.memoized _ f args kwargs cache) =>
    (w.setObj a (.memoized v f args kwargs cache), .ok ())
  | some (.config ov _ fb) =>
    if v = .sentinel then (w, .ok ())
    else (w.setObj a (.config ov v fb), .ok ())
  | some (.configItem _ cfgA path) => configurationItemSet w cfgA path v
  | _ => (w, .error .typeError)

/-- The method `reset` dispatched on the provider's class.  `Static`, `Callable` and
`MemoizedCallable` inherit `Provider.reset`, which restores `_override`
to the sentinel (and touches nothing else — in particular not `_cache`);
`Configuration.reset` and `_ConfigurationItem.reset` raise
`NotImplementedError`. -/
def resetP (w : World) (a : Addr) : World × Except PyErr Unit :=
  match w.obj? a with
  | some (.static _ value) => (w.setObj a (.static .sentinel value), .ok ())
  | some (.callable _ f args kwargs) => (w.setObj a (.callable .sentinel f args kwargs), .ok ())
  | some (.memoized _ f args kwargs cache) =>
    (w.setObj a (.memoized .sentinel f args kwargs cache), .ok ())
  | some (.config _ _ _) => (w, .error .notImplementedError)
  | some (.configItem _ _ _) => (w, .error .notImplementedError)
  | _ => (w, .error .typeError)

/-- Run `n` successive `get()` calls on provider `a`, keeping the world. -/
def getN (fuel : Nat) : Nat → World → Addr → World
  | 0, w, _ => w
  | n + 1, w, a => getN fuel n (getP fuel w a).1 a

/-- Pure value trees, for reading a heap value back as the nested literal
a Python test would compare against (`config.get() == {"a": {"c": 5}}`). -/
inductive Tree where
  | vnone
  | sentinel
  | int (n : Int)
  | str (s : String)
  | objref (a : Addr)
  | node (entries : List (String × Tree))

/-- One level of `readTree`: scalars map to their leaves, a dict
reference maps to a node whose entries are read by `rec`. -/
def readTreeF (w : World) (rec : Value → Tree) : Value → Tree
  | .vnone => .vnone
  | .sentinel => .sentinel
  | .int n => .int n
  | .str s => .str s
  | .ref a =>
    match w.obj? a with
    | some (.dict d) => .node (d.map fun kv => (kv.1, rec kv.2))
    | _ => .objref a

/-- Flatten a heap value into a `Tree`, following dict references up to
`fuel` levels deep. -/
def readTree : Nat → World → Value → Tree
  | 0, _, .vnone => .vnone
  | 0, _, .sentinel => .sentinel
  | 0, _, .int n => .int n
  | 0, _, .str s => .str s
  | 0, _, .ref a => .objref a
  | fuel + 1, w, v => readTreeF w (fun u => readTree fuel w u) v

/-! ### The injection wrapper (`_inject` / `inject` in `__init__.py`) -/

/-- A parameter of a wrapped function's signature: its name and its
declared default (none when the parameter has no default). -/
structure ParamSpec where
  pname : String
  pdefault : Option Value
deriving DecidableEq, Repr

/-- Positional part of `sig.bind_partial`: assign positionals to
parameters in order; too many positionals is a `TypeError`. -/
def bindPos : List ParamSpec → List Value → Except PyErr (List (ParamSpec × Option Value))
  | ps, [] => .ok (ps.map fun p => (p, none))
  | [], _ :: _ => .error .typeError
  | p :: ps, v :: vs =>
    match bindPos ps vs with
    | .ok r => .ok ((p, some v) :: r)
    | .error e => .error e

/-- Assign one keyword argument: unknown names and names already bound
positionally are `TypeError`s. -/
def assignKw : List (ParamSpec × Option Value) → String → Value →
    Except PyErr (List (ParamSpec × Option Value))
  | [], _, _ => .error .typeError
  | (p, b) :: rest, k, v =>
    if p.pname = k then
      match b with
      | some _ => .error .typeError
      | none => .ok ((p, some v) :: rest)
    else
      match assignKw rest k v with
      | .ok r => .ok ((p, b) :: r)
      | .error e => .error e

/-- Keyword part of `sig.bind_partial`. -/
def bindKw : List (ParamSpec × Option Value) → List (String × Value) →
    Except PyErr (List (ParamSpec × Option Value))
  | bs, [] => .ok bs
  | bs, (k, v) :: rest =>
    match assignKw bs k v with
    | .ok bs1 => bindKw bs1 rest
    | .error e => .error e

/-- Embedding of `bind.apply_defaults()`: fill each unbound parameter that has a
declared default. -/
def applyDefaults (bs : List (ParamSpec × Option Value)) : List (ParamSpec × Option Value) :=
  bs.map fun pb =>
    match pb with
    | (p, none) => (p, p.pdefault)
    | x => x

/-- Embedding of `bind.args`: the longest prefix of parameters with bound values, in
declaration order. -/
def boundArgsPre : List (ParamSpec × Option Value) → List Value
  | (_, some v) :: rest => v :: boundArgsPre rest
  | _ => []

/-- The parameters after that prefix. -/
def boundRest : List (ParamSpec × Option Value) → List (ParamSpec × Option Value)
  | (_, some _) :: rest => boundRest rest
  | l => l

/-- Embedding of `bind.kwargs`: bound parameters after the first gap, as keywords. -/
def boundKwTail (l : List (ParamSpec × Option Value)) : List (String × Value) :=
  (boundRest l).foldr
    (fun pb acc =>
      match pb.2 with
      | some v => (pb.1.pname, v) :: acc
      | none => acc)
    []

/-- A call through the wrapper `_` produced by `_inject(func, respect_none)`
(`__init__.py`): filter the raw arguments (sentinel-valued ones when
`respect_none` is false, `None`-valued ones when it is true), bind them
partially against the signature, apply defaults, then resolve
provider-valued bound arguments via `_inject_args`/`_inject_kwargs` and
invoke the function. -/
def injectedCall (fuel : Nat) (respect_none : Bool) (sig : List ParamSpec) (f : FuncId)
    (w : World) (args : List Value) (kwargs : List (String × Value)) :
    World × Except PyErr Value :=
  let filteredArgs :=
    if !respect_none then args.filter (fun a => !(a == Value.sentinel))
    else args.filter (fun a => !(a == Value.vnone))
  let filteredKwargs :=
    if !respect_none then kwargs.filter (fun kv => !(kv.2 == Value.sentinel))
    else kwargs.filter (fun kv => !(kv.2 == Value.vnone))
  match bindPos sig filteredArgs with
  | .error e => (w, .error e)
  | .ok b0 =>
    match bindKw b0 filteredKwargs with
    | .error e => (w, .error e)
    | .ok b1 =>
      let b2 := applyDefaults b1
      match injectArgsW fuel w (boundArgsPre b2) with
      | (w1, .error e) => (w1, .error e)
      | (w1, .ok ra) =>
        match injectKwargsW fuel w1 (boundKwTail b2) with
        | (w2, .error e) => (w2, .error e)
        | (w2, .ok rk) => applyFunc f w2 ra rk

/-- The default of the `respect_none` parameter in every overload of
`inject` (`__init__.py`): `respect_none: bool = True`. -/
def injectRespectNoneDefault : Bool := true

/-- Embedding of `_ProvideClass.__getitem__` (`__init__.py`): `Provide[provider]`
returns the provider itself, unchanged. -/
def ProvideGetitem (provider : Value) : Value := provider

/-! ### Class-body evaluation of `STATE_FIELDS` (for the providers module) -/

/-- The attribute names bound in the class body of `Provider`
(`src/simple_di/__init__.py`, lines 30–60): a docstring and five methods —
and no `STATE_FIELDS`. -/
def Provider.attrNames : List String :=
  ["__doc__", "__init__", "_provide", "set", "get", "reset"]

/-- The `STATE_FIELDS` class attribute of `Provider`, as a tuple of
strings: absent, since `Provider.attrNames` binds no such name (its base
`object` has none either). -/
def Provider.STATE_FIELDS? : Option (List String) :=
  if "STATE_FIELDS" ∈ Provider.attrNames then some [] else none

/-- Evaluating `base.STATE_FIELDS + (extra, ...)` in a class body: an
absent attribute on the base raises `AttributeError`. -/
def evalStateFields (base : Option (List String)) (extra : List String) :
    Except PyErr (List String) :=
  match base with
  | none => .error .attributeError
  | some fs => .ok (fs ++ extra)

/-- The assignment `Static.STATE_FIELDS = Provider.STATE_FIELDS + ('_value',)`. -/
def Static.stateFieldsEval : Except PyErr (List String) :=
  evalStateFields Provider.STATE_FIELDS? ["_value"]

/-- The assignment `Callable.STATE_FIELDS = Provider.STATE_FIELDS + ('_args', "_kwargs", "_func")`. -/
def Callable.stateFieldsEval : Except PyErr (List String) :=
  evalStateFields Provider.STATE_FIELDS? ["_args", "_kwargs", "_func"]

/-- The assignment `MemoizedCallable.STATE_FIELDS = Callable.STATE_FIELDS + ("_cache",)`;
`Callable.STATE_FIELDS`, had the class `Callable` been created, would
itself resolve through `Provider`, so the lookup chain bottoms out in
`Provider.STATE_FIELDS?`. -/
def MemoizedCallable.stateFieldsEval : Except PyErr (List String) :=
  match Callable.stateFieldsEval with
  | .ok fs => .ok (fs ++ ["_cache"])
  | .error e => .error e

/-- The assignment `Configuration.STATE_FIELDS = Provider.STATE_FIELDS + ('_data', "fallback")`. -/
def Configuration.stateFieldsEval : Except PyErr (List String) :=
  evalStateFields Provider.STATE_FIELDS? ["_data", "fallback"]

/-- The assignment `_ConfigurationItem.STATE_FIELDS = Provider.STATE_FIELDS + ('_config', "_path")`. -/
def ConfigurationItem.stateFieldsEval : Except PyErr (List String) :=
  evalStateFields Provider.STATE_FIELDS? ["_config", "_path"]

/-- Evaluating the class bodies of `src/simple_di/providers.py` in order:
the module import succeeds only if every `STATE_FIELDS` assignment does. -/
def providersModuleEval : Except PyErr Unit :=
  match Static.stateFieldsEval with
  | .error e => .error e
  | .ok _ =>
    match Callable.stateFieldsEval with
    | .error e => .error e
    | .ok _ =>
      match MemoizedCallable.stateFieldsEval with
      | .error e => .error e
      | .ok _ =>
        match Configuration.stateFieldsEval with
        | .error e => .error e
        | .ok _ =>
          match ConfigurationItem.stateFieldsEval with
          | .error e => .error e
          | .ok _ => .ok ()

/-! ### Helper lemmas -/

/-- Looking up the key just written by `dictInsert` yields the new value. -/
theorem dictLookup_dictInsert (d : PyDict) (k : String) (v : Value) :
    dictLookup (dictInsert d k v) k = some v := by
  induction d with
  | nil => simp [dictInsert, dictLookup, List.lookup]
  | cons kv rest ih =>
    rcases kv with ⟨k1, v1⟩
    by_cases hk : k1 = k
    · subst hk
      simp [dictInsert, dictLookup, List.lookup]
    · have hbeq : (k == k1) = false := by simp [Ne.symm hk]
      unfold dictInsert at ih ⊢
      by_cases hmem : (List.lookup k rest).isSome
      · simp [dictLookup, List.lookup, hbeq, hk, hmem] at ih ⊢
        exact ih
      · simp [dictLookup, List.lookup, hbeq, hk, hmem] at ih ⊢
        exact ih

/-- An address holding one object kind cannot hold another. -/
theorem obj_at_addr_unique (w : World) (a : Addr) (o o2 : Obj)
    (h : w.obj? a = some o) (h2 : w.obj? a = some o2) : o = o2 := by
  rw [h] at h2; exact Option.some.inj h2

/-- The update `World.setObj` at an existing address updates the lookup there. -/
theorem obj_setObj_self (w : World) (a : Addr) (o o2 : Obj)
    (h : w.obj? a = some o) : (w.setObj a o2).obj? a = some o2 := by
  have hlt : a < w.store.length := by
    by_contra hge
    have : w.store.get? a = none := List.get?_eq_none.mpr (Nat.le_of_not_lt hge)
    rw [World.obj?, this] at h
    exact Option.noConfusion h
  simp [World.obj?, World.setObj, List.get?_set, hlt]

/-- The update `World.setObj` leaves other addresses untouched. -/
theorem obj_setObj_other (w : World) (a b : Addr) (o : Obj) (hab : a ≠ b) :
    (w.setObj a o).obj? b = w.obj? b := by
  simp [World.obj?, World.setObj, List.get?_set, hab]

/-- Calling `Provider.get` on a `Static`/`Callable`/`MemoizedCallable` whose
override is set returns the override without side effects. -/
theorem getP_override (fuel : Nat) (w : World) (a : Addr) (ov : Value) (hov : ov ≠ .sentinel) :
    (∀ v, w.obj? a = some (.static ov v) → getP (fuel + 1) w a = (w, .ok ov)) ∧
    (∀ f args kwargs, w.obj? a = some (.callable ov f args kwargs) →
      getP (fuel + 1) w a = (w, .ok ov)) ∧
    (∀ f args kwargs cache, w.obj? a = some (.memoized ov f args kwargs cache) →
      getP (fuel + 1) w a = (w, .ok ov)) := by
  refine ⟨fun v h => ?_, fun f args kwargs h => ?_, fun f args kwargs cache h => ?_⟩ <;>
    simp [getP, h, hov]

/-- Calling `Provider.get` on a `Static` with no override returns the stored value. -/
theorem getP_static (fuel : Nat) (w : World) (a : Addr) (v : Value)
    (h : w.obj? a = some (.static .sentinel v)) : getP (fuel + 1) w a = (w, .ok v) := by
  simp [getP, h]

/-- Calling `Provider.get` on a `MemoizedCallable` with no override and a filled
cache returns the cache and leaves the world unchanged. -/
theorem getP_memoized_cached (fuel : Nat) (w : World) (a : Addr)
    (f : FuncId) (args : List Value) (kwargs : List (String × Value)) (cache : Value)
    (h : w.obj? a = some (.memoized .sentinel f args kwargs cache))
    (hc : cache ≠ .sentinel) : getP (fuel + 1) w a = (w, .ok cache) := by
  simp [getP, h, hc]

/-! ### Claim theorems -/

/-- C1: the `Provider` base class (src/simple_di/__init__.py) binds no
attribute named `STATE_FIELDS`, so evaluating the class body of each
concrete provider class in src/simple_di/providers.py — every one of
which computes its `STATE_FIELDS` by extending the inherited
`STATE_FIELDS` — fails with an attribute-lookup error (`AttributeError`),
and therefore importing the providers module (and constructing any
concrete provider) fails rather than succeeding. -/
theorem C1_state_fields_attribute_error :
    Provider.STATE_FIELDS? = none ∧
    Static.stateFieldsEval = .error .attributeError ∧
    Callable.stateFieldsEval = .error .attributeError ∧
    MemoizedCallable.stateFieldsEval = .error .attributeError ∧
    Configuration.stateFieldsEval = .error .attributeError ∧
    ConfigurationItem.stateFieldsEval = .error .attributeError ∧
    providersModuleEval = .error .attributeError :=
  ⟨rfl, rfl, rfl, rfl, rfl, rfl, rfl⟩

/-- C5: a `Configuration` provider's state machine.  With `_data` unset,
`get()` returns the fallback when one is set and otherwise raises
`ValueError("Configuration Provider not initialized")`; with `_data` set,
`get()` returns `_data`; `set(sentinel)` is a no-op leaving the whole
world unchanged; `set(v)` for non-sentinel `v` stores `v` as `_data`;
and `reset()` always raises `NotImplementedError`. -/
theorem C5_configuration_state_machine (w : World) (a : Addr) (ov data fb : Value)
    (h : w.obj? a = some (.config ov data fb)) :
    (data = .sentinel → fb = .sentinel →
      configurationGet w a = .error (.valueError "Configuration Provider not initialized")) ∧
    (data = .sentinel → fb ≠ .sentinel → configurationGet w a = .ok fb) ∧
    (data ≠ .sentinel → configurationGet w a = .ok data) ∧
    (∀ fuel, getP (fuel + 1) w a = (w, configurationGet w a)) ∧
    (setP w a .sentinel = (w, .ok ())) ∧
    (∀ v, v ≠ .sentinel → setP w a v = (w.setObj a (.config ov v fb), .ok ()) ∧
      configurationGet (w.setObj a (.config ov v fb)) a = .ok v) ∧
    (resetP w a = (w, .error .notImplementedError)) := by
  refine ⟨fun hd hf => ?_, fun hd hf => ?_, fun hd => ?_, fun fuel => ?_, ?_,
    fun v hv => ⟨?_, ?_⟩, ?_⟩
  · simp [configurationGet, h, hd, hf]
  · simp [configurationGet, h, hd, hf]
  · simp [configurationGet, h, hd]
  · simp [getP, h]
  · simp [setP, h]
  · simp [setP, h, hv]
  · simp [configurationGet, obj_setObj_self w a _ _ h, hv]
  · simp [resetP, h]

/-- Closed witness for C5 at a concrete configuration. -/
theorem C5_configuration_state_machine_witness :
    configurationGet ⟨[.config .sentinel .sentinel .sentinel], 0⟩ 0 =
      .error (.valueError "Configuration Provider not initialized") :=
  (C5_configuration_state_machine ⟨[.config .sentinel .sentinel .sentinel], 0⟩ 0
    .sentinel .sentinel .sentinel rfl).1 rfl rfl

/-- Scenario heap for C7: a configuration holding `{"a": {"b": 1}}` with
no fallback, plus the path providers `config.a.b`, `config.a.c` and
`config.x.y`. -/
def pathGetWorld : World :=
  ⟨[.dict [("a", .ref 1)], .dict [("b", .int 1)],
    .config .sentinel (.ref 0) .sentinel,
    .configItem .sentinel 2 ["a", "b"], .configItem .sentinel 2 ["a", "c"],
    .configItem .sentinel 2 ["x", "y"]], 0⟩

/-- C7: `_ConfigurationItem.get` over an initialized mapping-valued
configuration without fallback short-circuit walks the segments left to
right through the live mapping.  Generically, the walk returns the value
at the full path when each lookup succeeds and stops with the underlying
missing-key error at the first absent segment; concretely, with
`data = {"a": {"b": 1}}`, `config.a.b.get()` returns `1`, while
`config.a.c.get()` raises `KeyError("c")` and `config.x.y.get()` raises
`KeyError("x")` without looking at later segments. -/
theorem C7_path_get_walk :
    (∀ (w : World) (cursor nxt : Value) (k : String) (rest : List String),
      subscriptGet w cursor k = .ok nxt →
      pathWalk w cursor (k :: rest) = pathWalk w nxt rest) ∧
    (∀ (w : World) (cursor : Value) (k : String) (rest : List String) (e : PyErr),
      subscriptGet w cursor k = .error e →
      pathWalk w cursor (k :: rest) = .error e) ∧
    configurationItemGet pathGetWorld 2 ["a", "b"] = .ok (.int 1) ∧
    (∀ fuel, getP (fuel + 1) pathGetWorld 3 = (pathGetWorld, .ok (.int 1))) ∧
    configurationItemGet pathGetWorld 2 ["a", "c"] = .error (.keyError "c") ∧
    (∀ fuel, getP (fuel + 1) pathGetWorld 4 = (pathGetWorld, .error (.keyError "c"))) ∧
    configurationItemGet pathGetWorld 2 ["x", "y"] = .error (.keyError "x") ∧
    (∀ fuel, getP (fuel + 1) pathGetWorld 5 = (pathGetWorld, .error (.keyError "x"))) := by
  refine ⟨fun w cursor nxt k rest hk => ?_, fun w cursor k rest e hk => ?_,
    rfl, fun fuel => ?_, rfl, fun fuel => ?_, rfl, fun fuel => ?_⟩
  · simp [pathWalk, hk]
  · simp [pathWalk, hk]
  · simp [getP, pathGetWorld]; rfl
  · simp [getP, pathGetWorld]; rfl
  · simp [getP, pathGetWorld]; rfl

/-- Closed witness for C7's generic walk steps at a concrete heap. -/
theorem C7_path_get_walk_witness :
    pathWalk pathGetWorld (.ref 0) ["a", "b"] = pathWalk pathGetWorld (.ref 1) ["b"] ∧
    pathWalk pathGetWorld (.ref 0) ["x", "y"] = .error (.keyError "x") :=
  ⟨C7_path_get_walk.1 pathGetWorld (.ref 0) (.ref 1) "a" ["b"] rfl,
   C7_path_get_walk.2.1 pathGetWorld (.ref 0) "x" ["y"] (.keyError "x") rfl⟩

/-- Scenario heap for C8, parametrized by the path of the derived path
provider: a configuration constructed with no data and `fallback="X"`. -/
def fallbackWorld (path : List String) : World :=
  ⟨[.config .sentinel .sentinel (.str "X"), .configItem .sentinel 0 path], 0⟩

/-- Scenario heap for C8's identity test: `_data` and `fallback` are the
very same dict object (address 0). -/
def fallbackSameObjWorld : World :=
  ⟨[.dict [], .config .sentinel (.ref 0) (.ref 0), .configItem .sentinel 1 ["m"]], 0⟩

/-- Scenario heap for C8's no-identity test: `_data` and `fallback` are
equal but distinct empty dict objects (addresses 0 and 1). -/
def fallbackEqObjWorld : World :=
  ⟨[.dict [], .dict [], .config .sentinel (.ref 0) (.ref 1), .configItem .sentinel 2 ["m"]], 0⟩

/-- C8: whole-tree fallback short-circuit.  For a configuration with no
data and `fallback="X"`, `config.get()` returns `"X"` and every derived
path provider — any path whatsoever — also returns the entire fallback
without walking a single segment.  The short-circuit is keyed on object
identity of the resolved value with the fallback: when `_data` *is* the
fallback object, a path provider still returns the whole object even
though the path is absent from it, while with an equal-but-distinct
fallback object the walk proceeds and raises the missing-key error. -/
theorem C8_fallback_short_circuit :
    (∀ path, configurationGet (fallbackWorld path) 0 = .ok (.str "X")) ∧
    (∀ path, configurationItemGet (fallbackWorld path) 0 path = .ok (.str "X")) ∧
    (∀ path fuel, getP (fuel + 1) (fallbackWorld path) 1 = (fallbackWorld path, .ok (.str "X"))) ∧
    configurationItemGet fallbackSameObjWorld 1 ["m"] = .ok (.ref 0) ∧
    configurationItemGet fallbackEqObjWorld 2 ["m"] = .error (.keyError "m") := by
  refine ⟨fun path => rfl, fun path => rfl, fun path fuel => ?_, rfl, rfl⟩
  simp [getP, fallbackWorld]; rfl

/-- Scenario heap for C6: a configuration holding `{"a": {}}` and the
path provider `config.a.c`. -/
def pathSetWorld : World :=
  ⟨[.dict [("a", .ref 1)], .dict [],
    .config .sentinel (.ref 0) .sentinel, .configItem .sentinel 2 ["a", "c"]], 0⟩

/-- Scenario heap for C6 with a missing intermediate: the configuration
holds `{}` and the path provider is `config.a.c`. -/
def pathSetWorldMissing : World :=
  ⟨[.dict [], .config .sentinel (.ref 0) .sentinel, .configItem .sentinel 1 ["a", "c"]], 0⟩

/-- C6: `_ConfigurationItem.set` walks every path segment but the last,
descending into an existing key's value unchanged (no allocation) and
materialising a fresh empty dict only at a missing key, then assigns the
value at the final segment.  Generic single-step facts: on a dict cursor,
a present key descends into the stored value with the heap untouched,
and an absent key allocates an empty dict, links it, and descends into
it.  Concretely, with `data = {"a": {}}`, `config.a.c.set(5)` succeeds,
makes `config.get()` equal `{"a": {"c": 5}}`, and allocates nothing
(the only intermediate segment `"a"` already exists), while starting
from `data = {}` the same write allocates exactly one intermediate dict
and produces the same tree. -/
theorem C6_path_set :
    (∀ (w : World) (a : Addr) (d : PyDict) (k : String) (nxt : Value),
      w.obj? a = some (.dict d) → dictLookup d k = some nxt →
      setStep w (.ref a) k = (w, .ok nxt)) ∧
    (∀ (w : World) (a : Addr) (d : PyDict) (k : String),
      w.obj? a = some (.dict d) → dictLookup d k = none →
      setStep w (.ref a) k =
        ((w.alloc (.dict [])).1.setObj a (.dict (dictInsert d k (.ref w.store.length))),
         .ok (.ref w.store.length))) ∧
    (setP pathSetWorld 3 (.int 5)).2 = .ok () ∧
    readTree 3 (setP pathSetWorld 3 (.int 5)).1 (.ref 0) =
      .node [("a", .node [("c", .int 5)])] ∧
    configurationGet (setP pathSetWorld 3 (.int 5)).1 2 = .ok (.ref 0) ∧
    (setP pathSetWorld 3 (.int 5)).1.store.length = pathSetWorld.store.length ∧
    (setP pathSetWorldMissing 2 (.int 5)).2 = .ok () ∧
    readTree 3 (setP pathSetWorldMissing 2 (.int 5)).1 (.ref 0) =
      .node [("a", .node [("c", .int 5)])] ∧
    (setP pathSetWorldMissing 2 (.int 5)).1.store.length =
      pathSetWorldMissing.store.length + 1 := by
  refine ⟨fun w a d k nxt hd hk => ?_, fun w a d k hd hk => ?_,
    rfl, rfl, rfl, rfl, rfl, rfl, rfl⟩
  · simp [setStep, hd, hk]
  · simp [setStep, hd, hk, World.alloc]

/-- Closed witness for C6's generic step facts at a concrete heap. -/
theorem C6_path_set_witness :
    setStep pathSetWorld (.ref 0) "a" = (pathSetWorld, .ok (.ref 1)) ∧
    setStep pathSetWorldMissing (.ref 0) "a" =
      ((pathSetWorldMissing.alloc (.dict [])).1.setObj 0
        (.dict (dictInsert [] "a" (.ref pathSetWorldMissing.store.length))),
       .ok (.ref pathSetWorldMissing.store.length)) :=
  ⟨C6_path_set.1 pathSetWorld 0 [("a", .ref 1)] "a" (.ref 1) rfl rfl,
   C6_path_set.2.1 pathSetWorldMissing 0 [] "a" rfl rfl⟩

/-- Scenario heap for the injection claims: the provider `p = Static(42)`
at address 0, with an arbitrary invocation counter. -/
def injectWorld (c : Nat) : World := ⟨[.static .sentinel (.int 42)], c⟩

/-- Signature of `def f(x, y=Provide[p])` with `p = Static(42)`. -/
def injSig : List ParamSpec := [⟨"x", none⟩, ⟨"y", some (ProvideGetitem (.ref 0))⟩]

/-- Signature of `def f(x, y=7)`: the default is not a provider. -/
def plainDefaultSig : List ParamSpec := [⟨"x", none⟩, ⟨"y", some (.int 7)⟩]

/-- C9: for `f(x, y=Provide[p])` wrapped by the injection wrapper with
`p = Static(42)`, calling the wrapper with only `x = 1` invokes the
original `f` with `(1, 42)` and returns its result — for *any* wrapped
function `f` and any world state; calling it with `(1, 7)` invokes `f`
with `(1, 7)` (an explicit argument preempts injection); a non-provider
default passes through unchanged.  Concretely with `f = sub`:
`f(1)` returns `1 - 42 = -41` and `f(1, 7)` returns `-6`. -/
theorem C9_injection_wrapper_substitution :
    ∀ (f : FuncId) (c fuel : Nat),
    injectedCall (fuel + 1) injectRespectNoneDefault injSig f (injectWorld c) [.int 1] [] =
      applyFunc f (injectWorld c) [.int 1, .int 42] [] ∧
    injectedCall (fuel + 1) injectRespectNoneDefault injSig f (injectWorld c)
        [.int 1, .int 7] [] =
      applyFunc f (injectWorld c) [.int 1, .int 7] [] ∧
    injectedCall (fuel + 1) injectRespectNoneDefault plainDefaultSig f (injectWorld c)
        [.int 1] [] =
      applyFunc f (injectWorld c) [.int 1, .int 7] [] ∧
    (injectedCall 2 injectRespectNoneDefault injSig .sub (injectWorld 0) [.int 1] []).2 =
      .ok (.int (-41)) ∧
    (injectedCall 2 injectRespectNoneDefault injSig .sub (injectWorld 0)
        [.int 1, .int 7] []).2 =
      .ok (.int (-6)) :=
  fun _ _ _ => ⟨rfl, rfl, rfl, rfl, rfl⟩

/-- C2 counterexample: the claim has the two policies backwards.  The
code's default is `respect_none = True`.  Under that default, calling the
wrapped `f(x, y=Provide[Static(42)])` with an explicit `None` for `y`
does *not* pass `None` through: injection occurs and the call returns
`f(1, 42) = -41` (passing `None` through would have been a `TypeError`
for `sub`).  Moreover a sentinel-valued argument is *not* filtered out
under the default policy: it reaches `sub` and raises `TypeError`. -/
theorem C2_counterexample :
    injectRespectNoneDefault = true ∧
    (injectedCall 2 injectRespectNoneDefault injSig .sub (injectWorld 0)
        [.int 1, .vnone] []).2 = .ok (.int (-41)) ∧
    applyFunc .sub (injectWorld 0) [.int 1, .vnone] [] =
      (injectWorld 0, .error .typeError) ∧
    (injectedCall 2 injectRespectNoneDefault injSig .sub (injectWorld 0)
        [.int 1, .sentinel] []).2 = .error .typeError :=
  ⟨rfl, rfl, rfl, rfl⟩

/-- C2 amended: the policies are exactly swapped relative to the claim.
The default of `respect_none` is `True`.  Under `respect_none = False`
(the non-default policy) sentinel-valued positional and named arguments
are filtered out (so injection occurs in their place) while an explicit
`None` is passed through to the callable untouched; under the default
`respect_none = True` policy an explicit `None` is treated as absent and
replaced by the provider's resolved value, while sentinel-valued
arguments pass through untouched. -/
theorem C2_amended_policy_swap :
    ∀ (f : FuncId) (c : Nat),
    injectRespectNoneDefault = true ∧
    injectedCall 2 false injSig f (injectWorld c) [.int 1, .sentinel] [] =
      applyFunc f (injectWorld c) [.int 1, .int 42] [] ∧
    injectedCall 2 false injSig f (injectWorld c) [.int 1] [("y", .sentinel)] =
      applyFunc f (injectWorld c) [.int 1, .int 42] [] ∧
    injectedCall 2 false injSig f (injectWorld c) [.int 1, .vnone] [] =
      applyFunc f (injectWorld c) [.int 1, .vnone] [] ∧
    injectedCall 2 true injSig f (injectWorld c) [.int 1, .vnone] [] =
      applyFunc f (injectWorld c) [.int 1, .int 42] [] ∧
    injectedCall 2 true injSig f (injectWorld c) [.int 1] [("y", .vnone)] =
      applyFunc f (injectWorld c) [.int 1, .int 42] [] ∧
    injectedCall 2 true injSig f (injectWorld c) [.int 1, .sentinel] [] =
      applyFunc f (injectWorld c) [.int 1, .sentinel] [] :=
  fun _ _ => ⟨rfl, rfl, rfl, rfl, rfl, rfl, rfl⟩

/-- Scenario heap for C10: a plain `Callable` wrapping the counting
function, with no pre-bound arguments and no override. -/
def callableCountWorld (c : Nat) : World := ⟨[.callable .sentinel .counting [] []], c⟩

/-- Each `get()` on `callableCountWorld`'s provider invokes the counting
function once and returns that invocation's result. -/
theorem callable_counting_get (c : Nat) :
    getP 1 (callableCountWorld c) 0 = (callableCountWorld (c + 1), .ok (.int (c + 1))) := rfl

/-- After `n` successive `get()` calls the counting function has run
`n` times. -/
theorem callable_counting_getN (n : Nat) : ∀ c : Nat,
    (getN 1 n (callableCountWorld c) 0).counter = c + n := by
  induction n with
  | zero => intro c; rfl
  | succ n ih =>
    intro c
    show (getN 1 n (getP 1 (callableCountWorld c) 0).1 0).counter = c + (n + 1)
    have h1 : (getP 1 (callableCountWorld c) 0).1 = callableCountWorld (c + 1) := rfl
    rw [h1, ih (c + 1)]
    omega

/-- Scenario heap for C10's fresh-resolution part: a `Callable` wrapping
`sub` with pre-bound arguments `(q, 1)` where `q = Static(m)`. -/
def callableArgWorld (m : Int) (c : Nat) : World :=
  ⟨[.callable .sentinel .sub [.ref 1, .int 1] [], .static .sentinel (.int m)], c⟩

/-- C10: a plain (non-memoized) `Callable` with no override re-invokes
the wrapped function on every `get()` — `n` successive `get()` calls
produce exactly `n` invocations of the counting function, each returning
that invocation's fresh result — and its provider-typed pre-bound
arguments are re-resolved on each call: with arguments `(q, 1)` for
`q = Static(m)`, `get()` returns `m - 1` for the *current* value `m`, so
overriding `q` between two calls changes the second call's result. -/
theorem C10_callable_fresh_each_get :
    (∀ c n, (getN 1 n (callableCountWorld c) 0).counter = c + n) ∧
    (∀ c, getP 1 (callableCountWorld c) 0 =
      (callableCountWorld (c + 1), .ok (.int (c + 1)))) ∧
    (∀ (m : Int) (c : Nat) (fuel : Nat),
      getP (fuel + 2) (callableArgWorld m c) 0 = (callableArgWorld m c, .ok (.int (m - 1)))) ∧
    (getP 2 (callableArgWorld 10 0) 0).2 = .ok (.int 9) ∧
    ((setP (callableArgWorld 10 0) 1 (.int 20)).2 = .ok () ∧
     (getP 2 (setP (callableArgWorld 10 0) 1 (.int 20)).1 0).2 = .ok (.int 19)) :=
  ⟨fun c n => callable_counting_getN n c, fun _ => rfl, fun _ _ _ => rfl, rfl, rfl, rfl⟩

/-- Scenario heap for C4: a `MemoizedCallable` wrapping the counting
function, with no pre-bound arguments, no override and an empty cache. -/
def memoCountWorld (c : Nat) : World := ⟨[.memoized .sentinel .counting [] [] .sentinel], c⟩

/-- Once a `MemoizedCallable`'s cache is filled and no override is set,
any number of further `get()` calls leave the world unchanged. -/
theorem memoized_cached_getN (fuel : Nat) (n : Nat) : ∀ (w : World) (a : Addr)
    (f : FuncId) (args : List Value) (kwargs : List (String × Value)) (cache : Value),
    w.obj? a = some (.memoized .sentinel f args kwargs cache) → cache ≠ .sentinel →
    getN (fuel + 1) n w a = w := by
  induction n with
  | zero => intro w a f args kwargs cache _ _; rfl
  | succ n ih =>
    intro w a f args kwargs cache h hc
    show getN (fuel + 1) n (getP (fuel + 1) w a).1 a = w
    rw [getP_memoized_cached fuel w a f args kwargs cache h hc]
    exact ih w a f args kwargs cache h hc

/-- Scenario heap for C4's interleaving part: a `MemoizedCallable`
wrapping the counting function with the pre-bound argument `q`,
`q = Static(10)`. -/
def memoArgWorld : World :=
  ⟨[.memoized .sentinel .counting [.ref 1] [] .sentinel, .static .sentinel (.int 10)], 0⟩

/-- The heap after the first `get()` on `memoArgWorld`'s memoized
provider: the cache holds the first result and the counter is 1. -/
def memoArgWorldAfter : World :=
  ⟨[.memoized .sentinel .counting [.ref 1] [] (.int 1), .static .sentinel (.int 10)], 1⟩

/-- C4: a `MemoizedCallable` with no override invokes its wrapped
function at most once across any number of `get()` calls: after `n`
calls the counting function has run `min n 1` times.  Once the cache
holds a real value, `get()` returns it and leaves the world unchanged —
no re-invocation and no re-resolution of arguments, whatever the rest of
the heap looks like.  `reset()` on a memoized provider clears only the
override and never the cache.  Concretely, with a nested argument
provider `q`: after the first `get()`, overriding `q` and then calling
`get()` again still returns the cached value with the counter at 1, and
`reset()` followed by `get()` does the same. -/
theorem C4_memoized_single_invocation :
    (∀ c n, (getN 1 n (memoCountWorld c) 0).counter = c + min n 1) ∧
    (∀ (fuel : Nat) (w : World) (a : Addr) (f : FuncId) (args : List Value)
      (kwargs : List (String × Value)) (cache : Value),
      w.obj? a = some (.memoized .sentinel f args kwargs cache) → cache ≠ .sentinel →
      getP (fuel + 1) w a = (w, .ok cache)) ∧
    (∀ (w : World) (a : Addr) (ov : Value) (f : FuncId) (args : List Value)
      (kwargs : List (String × Value)) (cache : Value),
      w.obj? a = some (.memoized ov f args kwargs cache) →
      resetP w a = (w.setObj a (.memoized .sentinel f args kwargs cache), .ok ())) ∧
    (getP 2 memoArgWorld 0 = (memoArgWorldAfter, .ok (.int 1)) ∧
     (setP memoArgWorldAfter 1 (.int 99)).2 = .ok () ∧
     getP 2 (setP memoArgWorldAfter 1 (.int 99)).1 0 =
       ((setP memoArgWorldAfter 1 (.int 99)).1, .ok (.int 1)) ∧
     (setP memoArgWorldAfter 1 (.int 99)).1.counter = 1 ∧
     (resetP (setP memoArgWorldAfter 1 (.int 99)).1 0).2 = .ok () ∧
     getP 2 (resetP (setP memoArgWorldAfter 1 (.int 99)).1 0).1 0 =
       ((resetP (setP memoArgWorldAfter 1 (.int 99)).1 0).1, .ok (.int 1)) ∧
     (resetP (setP memoArgWorldAfter 1 (.int 99)).1 0).1.counter = 1) := by
  refine ⟨fun c n => ?_, getP_memoized_cached, fun w a ov f args kwargs cache h => ?_,
    rfl, rfl, rfl, rfl, rfl, rfl, rfl⟩
  · match n with
    | 0 => rfl
    | n + 1 =>
      show (getN 1 n (getP 1 (memoCountWorld c) 0).1 0).counter = c + min (n + 1) 1
      have h1 : (getP 1 (memoCountWorld c) 0).1 =
          ⟨[.memoized .sentinel .counting [] [] (.int (c + 1))], c + 1⟩ := rfl
      rw [h1, memoized_cached_getN 0 n
        ⟨[.memoized .sentinel .counting [] [] (.int (c + 1))], c + 1⟩ 0
        .counting [] [] (.int (c + 1)) rfl (by simp)]
      simp
  · simp [resetP, h]

/-- Closed witness for C4's hypothesis-bearing parts at a concrete heap. -/
theorem C4_memoized_single_invocation_witness :
    getP 1 ⟨[.memoized .sentinel .counting [] [] (.int 7)], 3⟩ 0 =
      (⟨[.memoized .sentinel .counting [] [] (.int 7)], 3⟩, .ok (.int 7)) ∧
    resetP ⟨[.memoized (.int 9) .counting [] [] (.int 7)], 3⟩ 0 =
      ((⟨[.memoized (.int 9) .counting [] [] (.int 7)], 3⟩ : World).setObj 0
        (.memoized .sentinel .counting [] [] (.int 7)), .ok ()) :=
  ⟨C4_memoized_single_invocation.2.1 0 _ 0 .counting [] [] (.int 7) rfl (by decide),
   C4_memoized_single_invocation.2.2.1 _ 0 (.int 9) .counting [] [] (.int 7) rfl⟩

/-- Scenario heap for C3's counterexample: a configuration constructed
with no data and a dict fallback (`Configuration(fallback={})` at address
1, the fallback dict at address 0) and its path provider `config.a`. -/
def fallbackDictWorld : World :=
  ⟨[.dict [], .config .sentinel .sentinel (.ref 0), .configItem .sentinel 1 ["a"]], 0⟩

/-- C3 counterexample: the claim fails for configuration path providers.
With `config = Configuration(fallback={})` and `p = config.a`,
`p.set(5)` succeeds (it writes through into the fallback dict), but the
next `p.get()` returns the *whole fallback dict* `{"a": 5}` — the
identity short-circuit fires because the configuration's resolved value
is its own fallback — and not the value `5` that was set. -/
theorem C3_counterexample_path_provider :
    (setP fallbackDictWorld 2 (.int 5)).2 = .ok () ∧
    getP 2 (setP fallbackDictWorld 2 (.int 5)).1 2 =
      ((setP fallbackDictWorld 2 (.int 5)).1, .ok (.ref 0)) ∧
    Value.ref 0 ≠ Value.int 5 ∧
    readTree 2 (setP fallbackDictWorld 2 (.int 5)).1 (.ref 0) = .node [("a", .int 5)] :=
  ⟨rfl, rfl, by decide, rfl⟩

/-- C3 amended: `p.set(v); p.get() == v` holds with the following
scoping, which the counterexample forces.  For the override-based
providers `Static`, `Callable` and `MemoizedCallable` it holds for every
non-sentinel `v`, regardless of what `_provide` would compute (the
override always wins; `set(sentinel)` instead re-enables `_provide`,
since `get` treats a sentinel override as "no override").  For a
`Configuration` it holds for every non-sentinel `v` (`set(sentinel)` is
a no-op).  For a configuration path provider it holds — shown here for
single-segment paths — provided the backing configuration holds a
mapping and that mapping is not (by object identity) the configuration's
own fallback; a path provider over a fallback-valued configuration can
return the whole fallback instead of `v`. -/
theorem C3_amended_set_then_get (fuel : Nat) (w : World) (a : Addr) (v : Value)
    (hv : v ≠ .sentinel) :
    (∀ ov val, w.obj? a = some (.static ov val) →
      (setP w a v).2 = .ok () ∧
      getP (fuel + 1) (setP w a v).1 a = ((setP w a v).1, .ok v)) ∧
    (∀ ov f args kwargs, w.obj? a = some (.callable ov f args kwargs) →
      (setP w a v).2 = .ok () ∧
      getP (fuel + 1) (setP w a v).1 a = ((setP w a v).1, .ok v)) ∧
    (∀ ov f args kwargs cache, w.obj? a = some (.memoized ov f args kwargs cache) →
      (setP w a v).2 = .ok () ∧
      getP (fuel + 1) (setP w a v).1 a = ((setP w a v).1, .ok v)) ∧
    (∀ ov data fb, w.obj? a = some (.config ov data fb) →
      (setP w a v).2 = .ok () ∧
      getP (fuel + 1) (setP w a v).1 a = ((setP w a v).1, .ok v)) ∧
    (∀ ovi cfgA k d es covr fb,
      w.obj? a = some (.configItem ovi cfgA [k]) →
      w.obj? cfgA = some (.config covr (.ref d) fb) →
      w.obj? d = some (.dict es) →
      (!(fb == Value.sentinel) && pyIs (.ref d) fb) = false →
      (setP w a v).2 = .ok () ∧
      getP (fuel + 1) (setP w a v).1 a = ((setP w a v).1, .ok v)) := by
  refine ⟨fun ov val h => ?_, fun ov f args kwargs h => ?_,
    fun ov f args kwargs cache h => ?_, fun ov data fb h => ?_,
    fun ovi cfgA k d es covr fb hi hc hd hfb => ?_⟩
  · constructor
    · simp [setP, h]
    · have h2 : (setP w a v).1.obj? a = some (.static v val) := by
        simp [setP, h]; exact obj_setObj_self w a _ _ h
      simp [getP, h2, hv]
  · constructor
    · simp [setP, h]
    · have h2 : (setP w a v).1.obj? a = some (.callable v f args kwargs) := by
        simp [setP, h]; exact obj_setObj_self w a _ _ h
      simp [getP, h2, hv]
  · constructor
    · simp [setP, h]
    · have h2 : (setP w a v).1.obj? a = some (.memoized v f args kwargs cache) := by
        simp [setP, h]; exact obj_setObj_self w a _ _ h
      simp [getP, h2, hv]
  · constructor
    · simp [setP, h, hv]
    · have h2 : (setP w a v).1.obj? a = some (.config ov v fb) := by
        simp [setP, h, hv]; exact obj_setObj_self w a _ _ h
      simp [getP, h2, configurationGet, hv]
  · -- the path-provider case: a ≠ d and cfgA ≠ d since the addresses
    -- hold objects of different kinds
    have had : a ≠ d := fun he => by rw [he, hd] at hi; exact Obj.noConfusion (Option.some.inj hi)
    have hcd : cfgA ≠ d := fun he => by rw [he, hd] at hc; exact Obj.noConfusion (Option.some.inj hc)
    have hset : setP w a v =
        (w.setObj d (.dict (dictInsert es k v)), .ok ()) := by
      simp [setP, hi, configurationItemSet, hv, configurationGet, hc, setWalk,
        subscriptSet, hd, List.getLast?, List.dropLast]
    refine ⟨by rw [hset], ?_⟩
    rw [hset]
    have hi2 : (w.setObj d (.dict (dictInsert es k v))).obj? a =
        some (.configItem ovi cfgA [k]) := by
      rw [obj_setObj_other w d a _ (Ne.symm had)]; exact hi
    have hc2 : (w.setObj d (.dict (dictInsert es k v))).obj? cfgA =
        some (.config covr (.ref d) fb) := by
      rw [obj_setObj_other w d cfgA _ (Ne.symm hcd)]; exact hc
    have hd2 : (w.setObj d (.dict (dictInsert es k v))).obj? d =
        some (.dict (dictInsert es k v)) :=
      obj_setObj_self w d _ _ hd
    simp [getP, hi2, configurationItemGet, hc2, configurationGet, hfb, pathWalk,
      subscriptGet, hd2, dictLookup_dictInsert]

/-- Closed witness for C3's amended claim: a `Static` and a single-segment
path provider over an initialized non-fallback configuration. -/
theorem C3_amended_set_then_get_witness :
    (setP ⟨[.static .sentinel (.int 0)], 0⟩ 0 (.int 7)).2 = .ok () ∧
    getP 1 (setP ⟨[.static .sentinel (.int 0)], 0⟩ 0 (.int 7)).1 0 =
      ((setP ⟨[.static .sentinel (.int 0)], 0⟩ 0 (.int 7)).1, .ok (.int 7)) ∧
    (setP ⟨[.dict [], .config .sentinel (.ref 0) .sentinel,
        .configItem .sentinel 1 ["a"]], 0⟩ 2 (.int 5)).2 = .ok () ∧
    getP 1 (setP ⟨[.dict [], .config .sentinel (.ref 0) .sentinel,
        .configItem .sentinel 1 ["a"]], 0⟩ 2 (.int 5)).1 2 =
      ((setP ⟨[.dict [], .config .sentinel (.ref 0) .sentinel,
        .configItem .sentinel 1 ["a"]], 0⟩ 2 (.int 5)).1, .ok (.int 5)) := by
  have hs := (C3_amended_set_then_get 0 ⟨[.static .sentinel (.int 0)], 0⟩ 0 (.int 7)
    (by decide)).1 .sentinel (.int 0) rfl
  have hp := (C3_amended_set_then_get 0 ⟨[.dict [], .config .sentinel (.ref 0) .sentinel,
      .configItem .sentinel 1 ["a"]], 0⟩ 2 (.int 5) (by decide)).2.2.2.2
    .sentinel 1 "a" 0 [] .sentinel .sentinel rfl rfl rfl rfl
  exact ⟨hs.1, hs.2, hp.1, hp.2⟩

end SimpleDI
